import Mathlib

/-!
Verification of the ValTime repository (src/animation_player.py, src/overlay.py):
a shallow embedding of the animation frame generator, the wire formatter, the
config loader, the playback scheduling loops and the overlay menu state machine,
followed by theorems about the claims of the specification.

Modelling conventions:
* A text line is a `List Char` (one entry per Unicode code point, as in Python).
* Python floats that only ever hold exact decimal constants (`0.5`) are `Rat`.
* Python `dict` values read with `.get(key, default)` are association lists /
  `Option` fields read with `lookup`/`getD`.
* The object-identity test `frames_to_play[-1] is not frames[-1]` is rendered at
  the index level: each generated frame is a distinct list object in the source,
  so identity of entries of `frames` coincides with index equality.
-/

namespace ValTime

/-! ### Frame generator (animation_player.py lines 22-70) -/

/-- Background character `BG_CHAR = "▒"`. -/
def BG_CHAR : Char := '▒'

/-- `SCREEN_WIDTH = 26` (each line is 26 characters). -/
def SCREEN_WIDTH : Nat := 26

/-- `TRUCK_WIDTH = 26`. -/
def TRUCK_WIDTH : Nat := 26

/-- The full truck sprite (each line is exactly 26 characters). -/
def TRUCK_SPRITE : List (List Char) :=
  ([ "▒▒▒▒▒▒▒▒▒▒▒▒▒▒▒▒▒▒▒▒▒▒▒▒▒▒",
     "▒▒▒▒▒▒▒▒▒▒▒▒▒▒▒▒▒▒▒▒▒▒▒▒▒▒",
     "▛▀▀▀▀▀▀▀▀▀▀▀▀▀▀▀▀▀▀▀█▒▒▒▒▒",
     "▌▒▒▒▒▒▒▒▒▒▒▒▒▒▒▒▒▒▒▒█▄▄▄▒▒",
     "▌▒▒▒▒▒▒▒▒▒▒▒▒▒▒▒▒▒▒▒█▒▒▐▒▒",
     "▌▒▒▒▀▀▜▒▀▀▜▒▛▜▒▛▜▒▒▒█║█▐▒▒",
     "▌▄▄▒▄▄▟▒▄▄▟║▙▟▒▙▟▒▒▒█║▌▐▒▒",
     "▌▒▒▒▌▒▒▒▌▒▒▒▌▌▒▌▌▒▒▒█████▒",
     "▌▒▒▒▙▄▄▒▙▄▄▒▌▙▒▌▙▒▒▒█████▒",
     "▌▒▒▒▒▒▒▒▒▒▒▒▒▒▒▒▒▒▒▒█████▒",
     "▙▄▄▄▄▄▄▄▄▄▄▄▄▄▄▄▄▄▄▄█████▒",
     "▒▒▛▜▛▜▒▒▒▒▒▒▒▒▒▒▛▜▛▜▒▒▒▒▒▒",
     "▒▒▙▟▙▟▒▒▒▒▒▒▒▒▒▒▙▟▙▟▒▒▒▒▒▒" ] : List String).map String.data

/-- A frame is an ordered list of text lines. -/
abbrev Frame := List (List Char)

/-- One output line of `generate_truck_frames`: the inner
`for screen_x in range(SCREEN_WIDTH)` loop, with the sprite width `S` in the
role of `TRUCK_WIDTH` and the screen width `W` in the role of `SCREEN_WIDTH`.
`truck_x = screen_x - truck_pos`; the character is `sprite_line[truck_x]` when
`0 <= truck_x < S`, else `BG_CHAR`.  (The index is only taken under that guard,
so `getD` never falls back to its default when the line has width `S`.) -/
def renderLine (spriteLine : List Char) (S W : Nat) (pos : Int) : List Char :=
  (List.range W).map (fun (screen_x : Nat) =>
    let truck_x : Int := (screen_x : Int) - pos
    if 0 ≤ truck_x ∧ truck_x < (S : Int) then
      spriteLine.getD truck_x.toNat BG_CHAR
    else BG_CHAR)

/-- The body of `generate_truck_frames`, with the sprite and the two width
constants as parameters: `for truck_pos in range(-S, W + 1)` builds one frame
per position; position number `i` of `List.range (W + S + 1)` corresponds to
`truck_pos = i - S`. -/
def generate_frames (sprite : List (List Char)) (S W : Nat) : List Frame :=
  (List.range (W + S + 1)).map (fun (i : Nat) =>
    sprite.map (fun sprite_line => renderLine sprite_line S W ((i : Int) - (S : Int))))

/-- `generate_truck_frames()` from animation_player.py. -/
def generate_truck_frames : List Frame :=
  generate_frames TRUCK_SPRITE TRUCK_WIDTH SCREEN_WIDTH

/-- `TRUCK_ANIMATION = generate_truck_frames()`. -/
def TRUCK_ANIMATION : List Frame := generate_truck_frames

/-! ### Wire formatter (animation_player.py lines 72-80) -/

/-- Python's whitespace test used by `str.strip`/`str.rstrip` (no argument):
space, tab, newline, carriage return, vertical tab, form feed.  (Python also
strips rarer Unicode space code points; none of them occur in this program's
data, whose only whitespace character is the ASCII space delimiter.) -/
def pyIsSpace (c : Char) : Bool :=
  c == ' ' || c == '\t' || c == '\n' || c == '\r' || c == '\x0b' || c == '\x0c'

/-- Python `str.rstrip()`: remove all trailing whitespace. -/
def pyRstrip (s : List Char) : List Char :=
  (s.reverse.dropWhile pyIsSpace).reverse

/-- Python `str.strip()`: remove leading and trailing whitespace. -/
def pyStrip (s : List Char) : List Char :=
  ((s.dropWhile pyIsSpace).reverse.dropWhile pyIsSpace).reverse

/-- `format_frame_for_valorant(frame_lines)`: concatenate `line + " "` for each
line, then `rstrip()` the result. -/
def format_frame_for_valorant (frame_lines : Frame) : List Char :=
  pyRstrip ((frame_lines.map (fun line => line ++ [' '])).flatten)

/-! ### Config persistence (animation_player.py lines 86-99, 113-115 and
overlay.py lines 457-463, 471-474) -/

/-- One animation's settings as stored in `animation_config.json`; each field
may be absent (the callers read both with `.get(key, default)`).  This models
well-typed config contents; contents that fail to parse as JSON at all are the
`garbled` case of `FileRead` below. -/
structure AnimEntry where
  skip_frames : Option Nat
  frame_delay : Option Rat
deriving DecidableEq

/-- The parsed config file: a JSON object whose `"animations"` key (optional,
read with `.get("animations", {})`) maps animation names to their settings. -/
structure ConfigFile where
  animations : Option (List (String × AnimEntry))
deriving DecidableEq

/-- What `open(CONFIG_FILE)` followed by `json.load` can encounter: the file is
absent (`FileNotFoundError`), present but not valid JSON (`json.JSONDecodeError`),
or present and parsed. -/
inductive FileRead where
  | missing
  | garbled
  | parsed (c : ConfigFile)

/-- Errors surfaced by `load_animation_config`. -/
inductive LoadError where
  | jsonDecodeError
deriving DecidableEq

/-- The built-in default returned on a missing file:
`{"animations": {"Truck": {"skip_frames": 5, "frame_delay": 0.5}}}`. -/
def default_animation_config : ConfigFile :=
  ⟨some [("Truck", ⟨some 5, some (1/2)⟩)]⟩

/-- `load_animation_config()`: the `try` block catches only `FileNotFoundError`
(returning the built-in default); a `json.JSONDecodeError` from corrupt contents
propagates to the caller. -/
def load_animation_config : FileRead → Except LoadError ConfigFile
  | .missing => .ok default_animation_config
  | .garbled => .error .jsonDecodeError
  | .parsed c => .ok c

/-- `config.get("animations", {}).get(name, {})` as used by both callers. -/
def anim_entry (c : ConfigFile) (name : String) : AnimEntry :=
  ((c.animations.getD []).lookup name).getD ⟨none, none⟩

/-- `anim_config.get("skip_frames", 5)`. -/
def resolve_skip_frames (c : ConfigFile) (name : String) : Nat :=
  (anim_entry c name).skip_frames.getD 5

/-- `anim_config.get("frame_delay", 0.5)`. -/
def resolve_frame_delay (c : ConfigFile) (name : String) : Rat :=
  (anim_entry c name).frame_delay.getD (1/2)

/-! ### Playback subsequence (animation_player.py lines 387-392 and
overlay.py lines 478-482) -/

/-- The indices of the frames selected for playback out of `n` frames with
stride `k`: `frames[::k]` keeps exactly the indices divisible by `k`, and the
final index `n - 1` is appended when the strided list does not already end with
it.  The source guards the append with the truthiness test `self.frames`
(`n = 0` skips it), and compares `frames_to_play[-1] is not frames[-1]` —
object identity, which for the distinct frame objects of this program is index
equality. -/
def playIndices (n k : Nat) : List Nat :=
  let s := (List.range n).filter (fun i => i % k == 0)
  if n = 0 then s
  else if s.getLast? = some (n - 1) then s else s ++ [n - 1]

/-- `frames_to_play = list(frames[::skip])` plus the appended final frame,
realised through `playIndices`. -/
def frames_to_play (frames : List α) (k : Nat) : List α :=
  (playIndices frames.length k).filterMap (fun i => frames[i]?)

/-! ### Playback scheduling loops (animation_player.py lines 384-421 and
overlay.py lines 465-515) -/

/-- Observable scheduler events: one InputInjector submission of a payload, or
one `time.sleep` suspension. -/
inductive PlayEvent where
  | dispatch (payload : List Char)
  | sleep (d : Rat)
deriving DecidableEq

/-- A frame held by `AnimationPlayer.frames`: either a list of lines or a
single string (the editor stores `text.split('\n') if '\n' in text else text`). -/
inductive PFrame where
  | lines (ls : List (List Char))
  | single (s : List Char)
deriving DecidableEq

/-- The single-line branch of `play_thread`: append each character and a space
after every character whose 1-based position is a multiple of 26. -/
def chunk26 (s : List Char) : List Char :=
  (s.enum.map (fun p => if (p.1 + 1) % 26 == 0 then [p.2, ' '] else [p.2])).flatten

/-- The payload a frame contributes inside `play_thread`, if any: a list frame
is formatted with `format_frame_for_valorant` and submitted when non-empty; a
string frame is submitted (chunked then `rstrip`ped) when `frame.strip()` is
truthy. -/
def payload? : PFrame → Option (List Char)
  | .lines ls =>
    let formatted := format_frame_for_valorant ls
    if formatted = [] then none else some formatted
  | .single s =>
    if pyStrip s = [] then none else some (pyRstrip (chunk26 s))

/-- The loop body of `AnimationPlayer.start_playback.play_thread`, as the list
of events it emits.  `alive t` is the value of the shared `self.is_playing`
flag at its `t`-th read (the reads, in order: the `if not self.is_playing:
break` check of each iteration, then — only when further frames remain, Python's
`and` short-circuits — the pre-sleep check `i < len(frames_to_play) - 1 and
self.is_playing`).  `i < len(frames_to_play) - 1` is rendered as `rest` being
non-empty. -/
def play_thread_aux (delay : Rat) (alive : Nat → Bool) :
    List PFrame → Nat → List PlayEvent
  | [], _ => []
  | f :: rest, t =>
    if alive t = true then
      (match payload? f with
       | some p => [PlayEvent.dispatch p]
       | none => []) ++
      (match rest with
       | [] => []
       | _ :: _ =>
         if alive (t + 1) = true then
           PlayEvent.sleep delay :: play_thread_aux delay alive rest (t + 2)
         else
           play_thread_aux delay alive rest (t + 2))
    else []

/-- Event trace of one run of `play_thread` over the playback subsequence. -/
def play_thread_events (delay : Rat) (alive : Nat → Bool)
    (frames_to_play : List PFrame) : List PlayEvent :=
  play_thread_aux delay alive frames_to_play 0

/-- The loop of `trigger_animation.play_animation` in overlay.py: for each frame
of the playback subsequence, when `format_frame_for_valorant` is non-empty,
submit the payload and then `time.sleep(frame_delay)` — the sleep sits inside
the `if formatted:` block and runs after every submission, the last included;
no flag guards the loop. -/
def overlay_play_events (delay : Rat) (fs : List Frame) : List PlayEvent :=
  (fs.map (fun f =>
    let p := format_frame_for_valorant f
    if p = [] then [] else [PlayEvent.dispatch p, PlayEvent.sleep delay])).flatten

/-- The payloads `trigger_animation` submits for the `"Truck"` animation given a
parsed config: stride and delay are resolved from the config, the playback
subsequence of `TRUCK_ANIMATION` is built, and each frame whose formatted text
is non-empty is pasted into chat. -/
def trigger_animation_dispatches (cfg : ConfigFile) : List (List Char) :=
  (frames_to_play TRUCK_ANIMATION (resolve_skip_frames cfg "Truck")).filterMap
    (fun f =>
      let p := format_frame_for_valorant f
      if p = [] then none else some p)

/-! ### Menu state machine (overlay.py lines 82-158, 351-427, 551-564) -/

/-- `self.main_options`. -/
def main_options : List String :=
  ["Rocket League", "Animations", "Combat", "Tactics", "Social", "Strategy"]

/-- `self.builtin_menus`. -/
def builtin_menus : List String := ["Combat", "Tactics", "Social", "Strategy"]

/-- `self.animation_menus`. -/
def animation_menus : List String := ["Animations"]

/-- `self.valorant_menu_keys` (`dict` lookup; defined on every builtin menu, a
lookup elsewhere would be a `KeyError` and is unreachable in the source). -/
def valorant_menu_keys (menu : String) : Nat :=
  (([("Combat", 1), ("Tactics", 2), ("Social", 3), ("Strategy", 4)] :
      List (String × Nat)).lookup menu).getD 0

/-- `self.submenus`. -/
def submenus : List (String × List String) :=
  [ ("Combat", ["Need Support", "Caution here!", "Need Healing!", "On My Way",
                "Ultimate Status"]),
    ("Tactics", ["I'll Take Point", "Let's rush them!", "Be Quiet", "Fall Back!",
                 "Play For Picks"]),
    ("Social", ["Thanks", "Commend", "Yes", "No", "Sorry", "Hello"]),
    ("Strategy", ["Going A", "Going B", "Going C", "Going Mid"]),
    ("Rocket League", ["What a save!", "Nice shot!", "Thanks!", "Well played!"]),
    ("Animations", ["Truck"]) ]

/-- The mutable navigation state of `CommunicationMenu`: Qt visibility,
`self.current_menu` (`"main"` or a submenu name), `self.options`,
`self.main_menu_index` and `self.selection_pending`. -/
structure OverlayState where
  visible : Bool
  current_menu : String
  options : List String
  main_menu_index : Nat
  selection_pending : Bool
deriving DecidableEq

/-- Side effects a menu transition can issue: the three dispatch kinds plus the
`QTimer.singleShot(ms, self.hide)` settle-delay scheduling. -/
inductive Action where
  | voiceline (mainKey subKey : Nat)
  | animation (name : String)
  | chat (msg : String)
  | scheduleHide (ms : Nat)
deriving DecidableEq

/-- Terminal dispatches (everything except the scheduled hide). -/
def is_dispatch : Action → Bool
  | .scheduleHide _ => false
  | _ => true

/-- `self.hide()`. -/
def hide_overlay (s : OverlayState) : OverlayState :=
  { s with visible := false }

/-- `toggle_visibility`: hide when visible; otherwise reset to the main menu,
clear the selection lock and show. -/
def toggle_visibility (s : OverlayState) : OverlayState :=
  if s.visible = true then hide_overlay s
  else { s with current_menu := "main", options := main_options,
                selection_pending := false, visible := true }

/-- `select_option(num)`.  Guards in source order: not visible, a selection is
pending, `num` out of range — each a silent no-op.  From the main menu a known
submenu name navigates (recording `main_menu_index = num`); in a submenu the
selection lock is set and exactly one dispatch plus one scheduled hide is
issued according to the menu's kind.  (The hotkey bridge only ever emits
`num ∈ {1,..,6}`.) -/
def select_option (s : OverlayState) (num : Nat) : OverlayState × List Action :=
  if s.visible = false then (s, [])
  else if s.selection_pending = true then (s, [])
  else if s.options.length < num then (s, [])
  else
    let selected := s.options.getD (num - 1) ""
    if s.current_menu = "main" then
      match submenus.lookup selected with
      | some opts =>
        ({ s with main_menu_index := num, current_menu := selected,
                  options := opts }, [])
      | none => (s, [])
    else
      let s' := { s with selection_pending := true }
      if builtin_menus.contains s.current_menu then
        (s', [.voiceline (valorant_menu_keys s.current_menu) num,
              .scheduleHide 500])
      else if animation_menus.contains s.current_menu then
        (s', [.animation selected, .scheduleHide 50])
      else
        (s', [.chat selected, .scheduleHide 50])

/-- `go_back`: return to the main menu when in a submenu (the selection lock is
not touched). -/
def go_back (s : OverlayState) : OverlayState :=
  if s.current_menu ≠ "main" then
    { s with current_menu := "main", options := main_options }
  else s

/-- `handle_back` (ESC): go back from a submenu, hide from the main menu. -/
def handle_back (s : OverlayState) : OverlayState :=
  if s.current_menu ≠ "main" then go_back s else hide_overlay s

/-- Whether an event is a `time.sleep` suspension. -/
def is_sleep : PlayEvent → Bool
  | .sleep _ => true
  | .dispatch _ => false

/-! ## Helper lemmas -/

/-- Indexing into a map over `List.range`. -/
theorem getD_map_range (f : Nat → β) (d : β) {i n : Nat} (h : i < n) :
    ((List.range n).map f).getD i d = f i := by
  simp [List.getD_eq_getElem?_getD, List.getElem?_range h]

/-- Indexing into a mapped list, with arbitrary defaults on both sides. -/
theorem getD_map_of_lt (g : α → β) (l : List α) {j : Nat} (h : j < l.length)
    (d : α) (d' : β) :
    (l.map g).getD j d' = g (l.getD j d) := by
  simp [List.getD_eq_getElem?_getD, List.getElem?_eq_getElem h]

/-- Reading every position of a list back off by index reproduces the list. -/
theorem map_getD_range (l : List α) (d : α) :
    (List.range l.length).map (fun i => l.getD i d) = l := by
  apply List.ext_getElem (by simp)
  intro i h1 h2
  simp [List.getD_eq_getElem?_getD, List.getElem?_eq_getElem h2]

/-- The last index `n - 1` occurs exactly once among the playback indices, for
any positive frame count and stride. -/
theorem playIndices_count_last (n k : Nat) (hn : 1 ≤ n) :
    (playIndices n k).count (n - 1) = 1 := by
  obtain ⟨m, rfl⟩ : ∃ m, n = m + 1 := ⟨n - 1, (Nat.succ_pred_eq_of_pos hn).symm⟩
  have hm : m + 1 - 1 = m := rfl
  set p : Nat → Bool := fun i => i % k == 0 with hp
  have hsplit : (List.range (m + 1)).filter p =
      (List.range m).filter p ++ (List.filter p [m]) := by
    rw [List.range_succ, List.filter_append]
  have hnotmem : m ∉ (List.range m).filter p := by
    intro hmem
    have := (List.mem_filter.mp hmem).1
    simp [List.mem_range] at this
  have hcount0 : ((List.range m).filter p).count m = 0 :=
    List.count_eq_zero.mpr hnotmem
  unfold playIndices
  simp only [hm, if_neg (Nat.succ_ne_zero m)]
  by_cases hpm : p m = true
  · have hfil : (List.range (m + 1)).filter p = (List.range m).filter p ++ [m] := by
      rw [hsplit]; simp [List.filter, hpm]
    rw [← hp, hfil]
    rw [if_pos (List.getLast?_concat _)]
    simp [List.count_append, hcount0]
  · have hfil : (List.range (m + 1)).filter p = (List.range m).filter p := by
      rw [hsplit]; simp [List.filter, hpm]
    rw [← hp, hfil]
    rw [if_neg ?_]
    · simp [List.count_append, hcount0]
    · intro hlast
      exact hnotmem (List.mem_of_getLast?_eq_some hlast)

/-- C2: for every stride `k ≥ 1` and non-empty frame sequence, the playback
subsequence — every `k`-th frame from index 0 plus the appended final frame,
frames identified by index as the source's object-identity test does —
contains the original sequence's final frame exactly once, whether or not `k`
divides the length. -/
theorem c2_theorem {α : Type} (frames : List α) (k : Nat)
    (hne : frames ≠ []) (hk : 1 ≤ k) :
    (playIndices frames.length k).count (frames.length - 1) = 1 :=
  playIndices_count_last frames.length k (List.length_pos.mpr hne)

/-- Witness for C2 at the generated 53-frame truck animation with stride 5. -/
theorem c2_witness :
    TRUCK_ANIMATION ≠ [] ∧ 1 ≤ 5 ∧
    (playIndices TRUCK_ANIMATION.length 5).count (TRUCK_ANIMATION.length - 1) = 1 :=
  ⟨by decide, by decide, c2_theorem TRUCK_ANIMATION 5 (by decide) (by decide)⟩

/-- C1 (amended): with the config mapping `"Truck"` to `skip_frames 5` and
`frame_delay 0.5` (which is exactly the built-in default config), playback of
the 53-frame generated truck animation dispatches exactly the frames at
indices `0,5,10,...,50` plus index `52` — that is, 12 dispatch calls (one
InputInjector submission per listed frame), not 11 as the claim counts. -/
theorem c1_theorem :
    resolve_skip_frames default_animation_config "Truck" = 5 ∧
    TRUCK_ANIMATION.length = 53 ∧
    playIndices TRUCK_ANIMATION.length
        (resolve_skip_frames default_animation_config "Truck") =
      [0, 5, 10, 15, 20, 25, 30, 35, 40, 45, 50, 52] ∧
    (trigger_animation_dispatches default_animation_config).length = 12 :=
  ⟨by decide, by decide, by decide, by decide⟩

/-- C1 counterexample: the dispatch count for the claimed configuration is not
11 (the listed indices `0,5,...,50` plus `52` are 12 frames). -/
theorem c1_counterexample :
    (trigger_animation_dispatches default_animation_config).length ≠ 11 := by
  decide

/-- C3 (amended): `load()` returns the built-in default animation set
(`"Truck"`, stride 5, delay 0.5 s) when the config file is missing
(`FileNotFoundError` is the only caught exception), and fields absent from a
loaded config are filled with these defaults field-by-field by the callers;
but corrupt/malformed contents are not recovered — `json.JSONDecodeError`
propagates to the caller. -/
theorem c3_theorem :
    load_animation_config FileRead.missing = Except.ok default_animation_config ∧
    (∀ c : ConfigFile, load_animation_config (FileRead.parsed c) = Except.ok c) ∧
    (∀ name, anim_entry ⟨none⟩ name = ⟨none, none⟩) ∧
    (∀ (m : List (String × AnimEntry)) (name : String), m.lookup name = none →
      anim_entry ⟨some m⟩ name = ⟨none, none⟩) ∧
    (∀ c name, (anim_entry c name).skip_frames = none →
      resolve_skip_frames c name = 5) ∧
    (∀ c name, (anim_entry c name).frame_delay = none →
      resolve_frame_delay c name = 1/2) ∧
    (∀ c name v, (anim_entry c name).skip_frames = some v →
      resolve_skip_frames c name = v) ∧
    (∀ c name d, (anim_entry c name).frame_delay = some d →
      resolve_frame_delay c name = d) := by
  refine ⟨rfl, fun c => rfl, fun name => rfl, ?_, ?_, ?_, ?_, ?_⟩
  · intro m name h
    simp [anim_entry, h]
  · intro c name h
    simp [resolve_skip_frames, h]
  · intro c name h
    simp [resolve_frame_delay, h]
  · intro c name v h
    simp [resolve_skip_frames, h]
  · intro c name d h
    simp [resolve_frame_delay, h]

/-- C3 counterexample: a present-but-corrupt config file makes `load()` raise
(`json.JSONDecodeError` is not caught) instead of returning the default set. -/
theorem c3_counterexample :
    load_animation_config FileRead.garbled = Except.error LoadError.jsonDecodeError ∧
    (Except.error LoadError.jsonDecodeError ≠
      (Except.ok default_animation_config : Except LoadError ConfigFile)) :=
  ⟨rfl, fun h => Except.noConfusion h⟩

/-- Witness for C3: a name absent from the default config resolves both its
fields to the defaults. -/
theorem c3_witness :
    (anim_entry default_animation_config "Rocket").skip_frames = none ∧
    resolve_skip_frames default_animation_config "Rocket" = 5 :=
  ⟨by decide, c3_theorem.2.2.2.2.1 default_animation_config "Rocket" (by decide)⟩

/-- C4 (amended): from any submenu state, `Back` returns the state machine to
the main menu but leaves `selection_pending` unchanged (it is NOT cleared; the
lock is only reset by `Toggle`'s show transition); `Back` issued at the main
menu hides the overlay, exactly `Toggle`'s hide transition. -/
theorem c4_theorem (s : OverlayState) :
    (s.current_menu ≠ "main" →
      handle_back s = { s with current_menu := "main", options := main_options } ∧
      (handle_back s).selection_pending = s.selection_pending) ∧
    (s.current_menu = "main" →
      handle_back s = hide_overlay s ∧
      (s.visible = true → handle_back s = toggle_visibility s)) := by
  constructor
  · intro h
    simp [handle_back, go_back, h]
  · intro h
    refine ⟨by simp [handle_back, h], fun hv => ?_⟩
    simp [handle_back, toggle_visibility, h, hv]

/-- C4 counterexample: `Back` from a submenu with the selection lock set does
not clear `selection_pending` to false. -/
theorem c4_counterexample :
    ¬ ((handle_back ⟨true, "Animations", ["Truck"], 2, true⟩).selection_pending
        = false) := by
  decide

/-- Witness for C4: a concrete submenu state returns to the main menu keeping
its pending lock, and a concrete main-menu state hides. -/
theorem c4_witness :
    handle_back ⟨true, "Animations", ["Truck"], 2, true⟩ =
      ⟨true, "main", main_options, 2, true⟩ ∧
    handle_back ⟨true, "main", main_options, 0, false⟩ =
      ⟨false, "main", main_options, 0, false⟩ :=
  ⟨((c4_theorem ⟨true, "Animations", ["Truck"], 2, true⟩).1 (by decide)).1,
   ((c4_theorem ⟨true, "main", main_options, 0, false⟩).2 rfl).1⟩

/-- C5: for every sprite whose lines all have width `S` and every screen width
`W ≥ S`, the frame generator produces exactly `W + S + 1` frames, each with the
sprite's line count, every line exactly `W` characters long. -/
theorem c5_theorem (sprite : List (List Char)) (S W : Nat)
    (h26 : ∀ l ∈ sprite, l.length = S) (hWS : S ≤ W) :
    (generate_frames sprite S W).length = W + S + 1 ∧
    (∀ fr ∈ generate_frames sprite S W,
      fr.length = sprite.length ∧ ∀ line ∈ fr, line.length = W) := by
  constructor
  · simp [generate_frames]
  · intro fr hfr
    simp only [generate_frames, List.mem_map] at hfr
    obtain ⟨i, -, rfl⟩ := hfr
    constructor
    · simp
    · intro line hline
      simp only [List.mem_map] at hline
      obtain ⟨sl, -, rfl⟩ := hline
      simp [renderLine]

/-- Witness for C5 at the truck sprite and the source's geometry. -/
theorem c5_witness :
    (∀ l ∈ TRUCK_SPRITE, l.length = 26) ∧
    (generate_frames TRUCK_SPRITE 26 26).length = 26 + 26 + 1 :=
  ⟨by decide, (c5_theorem TRUCK_SPRITE 26 26 (by decide) (by decide)).1⟩

/-- C6: in the generated sequence, the character of frame `i` (position
`p = i - S`) at line `j`, column `x` is the sprite character at column `x - p`
when `0 ≤ x - p < S` and the background glyph otherwise; the frames at
positions `-S` and `W` are entirely background, and when `W = S` (as in the
source, both 26) the frame at position `0` reproduces the sprite exactly. -/
theorem c6_theorem (sprite : List (List Char)) (S W : Nat)
    (h26 : ∀ l ∈ sprite, l.length = S) :
    (∀ i j x, i < W + S + 1 → j < sprite.length → x < W →
      (((generate_frames sprite S W).getD i []).getD j []).getD x BG_CHAR =
        (if 0 ≤ (x : Int) - ((i : Int) - (S : Int)) ∧
            (x : Int) - ((i : Int) - (S : Int)) < (S : Int) then
          (sprite.getD j []).getD ((x : Int) - ((i : Int) - (S : Int))).toNat BG_CHAR
        else BG_CHAR)) ∧
    (∀ j x, j < sprite.length → x < W →
      (((generate_frames sprite S W).getD 0 []).getD j []).getD x BG_CHAR = BG_CHAR) ∧
    (∀ j x, j < sprite.length → x < W →
      (((generate_frames sprite S W).getD (W + S) []).getD j []).getD x BG_CHAR
        = BG_CHAR) ∧
    (W = S → (generate_frames sprite S W).getD S [] = sprite) := by
  have key : ∀ i j x, i < W + S + 1 → j < sprite.length → x < W →
      (((generate_frames sprite S W).getD i []).getD j []).getD x BG_CHAR =
        (if 0 ≤ (x : Int) - ((i : Int) - (S : Int)) ∧
            (x : Int) - ((i : Int) - (S : Int)) < (S : Int) then
          (sprite.getD j []).getD ((x : Int) - ((i : Int) - (S : Int))).toNat BG_CHAR
        else BG_CHAR) := by
    intro i j x hi hj hx
    rw [generate_frames, getD_map_range _ _ hi,
      getD_map_of_lt _ sprite hj [] [], renderLine, getD_map_range _ _ hx]
  refine ⟨key, ?_, ?_, ?_⟩
  · intro j x hj hx
    rw [key 0 j x (by omega) hj hx, if_neg (by omega)]
  · intro j x hj hx
    rw [key (W + S) j x (by omega) hj hx, if_neg (by push_cast; omega)]
  · intro hWS
    subst hWS
    rw [generate_frames, getD_map_range _ _ (by omega)]
    have hline : ∀ line ∈ sprite, renderLine line W W ((W : Int) - (W : Int)) = line := by
      intro line hl
      rw [renderLine]
      have hcong : ∀ x ∈ List.range W, (fun (screen_x : Nat) =>
          let truck_x : Int := (screen_x : Int) - ((W : Int) - (W : Int))
          if 0 ≤ truck_x ∧ truck_x < (W : Int) then
            line.getD truck_x.toNat BG_CHAR
          else BG_CHAR) x = line.getD x BG_CHAR := by
        intro x hxr
        have hx : x < W := List.mem_range.mp hxr
        simp only []
        rw [if_pos ⟨by omega, by push_cast; omega⟩]
        congr 1
        omega
      rw [List.map_congr_left hcong, ← h26 line hl, map_getD_range]
    calc sprite.map (fun line => renderLine line W W ((W : Int) - (W : Int)))
        = sprite.map id := List.map_congr_left (by simpa using hline)
      _ = sprite := List.map_id sprite

/-- Witness for C6: the truck frame at position 0 (index 26) is exactly the
truck sprite. -/
theorem c6_witness :
    (∀ l ∈ TRUCK_SPRITE, l.length = 26) ∧
    (generate_frames TRUCK_SPRITE 26 26).getD 26 [] = TRUCK_SPRITE :=
  ⟨by decide, (c6_theorem TRUCK_SPRITE 26 26 (by decide)).2.2.2 rfl⟩

/-- C7: while the overlay is visible at a submenu with no selection pending, a
first in-range `Select` dispatches exactly one terminal action and sets
`selection_pending`; any further `Select` before the settle-delay hide fires is
a complete no-op (no state change, no action), so the two selects together
dispatch exactly one action. -/
theorem c7_theorem (s : OverlayState) (n1 n2 : Nat)
    (hvis : s.visible = true) (hsub : s.current_menu ≠ "main")
    (hpend : s.selection_pending = false)
    (h1 : 1 ≤ n1) (h2 : n1 ≤ s.options.length) :
    ((select_option s n1).2.countP is_dispatch = 1) ∧
    (select_option s n1).1.selection_pending = true ∧
    select_option (select_option s n1).1 n2 = ((select_option s n1).1, []) ∧
    ((select_option s n1).2 ++ (select_option (select_option s n1).1 n2).2).countP
      is_dispatch = 1 := by
  have hlen : ¬ (s.options.length < n1) := by omega
  have hfirst : select_option s n1 =
      ({ s with selection_pending := true },
        if builtin_menus.contains s.current_menu then
          [.voiceline (valorant_menu_keys s.current_menu) n1, .scheduleHide 500]
        else if animation_menus.contains s.current_menu then
          [.animation (s.options.getD (n1 - 1) ""), .scheduleHide 50]
        else
          [.chat (s.options.getD (n1 - 1) ""), .scheduleHide 50]) := by
    rw [select_option]
    simp only [hvis, hpend, if_neg hlen]
    simp only [hsub, if_neg, if_false, Bool.false_eq_true, ite_false]
    simp [hsub]
    split_ifs <;> rfl
  have hsecond : select_option { s with selection_pending := true } n2 =
      ({ s with selection_pending := true }, []) := by
    rw [select_option]
    simp [hvis]
  rw [hfirst]
  refine ⟨?_, rfl, hsecond, ?_⟩ <;>
    · split_ifs <;> simp [hsecond, List.countP_cons, is_dispatch]

/-- Witness for C7: in the Animations submenu, `Select(1)` then `Select(2)`
yields exactly one dispatched action. -/
theorem c7_witness :
    (("Animations" : String) ≠ "main") ∧
    ((select_option ⟨true, "Animations", ["Truck"], 2, false⟩ 1).2.countP
        is_dispatch = 1) ∧
    (select_option ⟨true, "Animations", ["Truck"], 2, false⟩ 1).1.selection_pending
      = true ∧
    select_option (select_option ⟨true, "Animations", ["Truck"], 2, false⟩ 1).1 2 =
      ((select_option ⟨true, "Animations", ["Truck"], 2, false⟩ 1).1, []) ∧
    (((select_option ⟨true, "Animations", ["Truck"], 2, false⟩ 1).2 ++
        (select_option (select_option ⟨true, "Animations", ["Truck"], 2, false⟩ 1).1
          2).2).countP is_dispatch = 1) :=
  ⟨by decide,
   c7_theorem ⟨true, "Animations", ["Truck"], 2, false⟩ 1 2 rfl (by decide) rfl
     (by decide) (by decide)⟩

/-- C10: every option of the six-entry main menu is a key of the submenu table,
so each `Select(n)` with `1 ≤ n ≤ 6` issued at the visible root navigates to
that submenu, records `main_menu_index = n`, and dispatches nothing — the
dangling-option silent no-op branch is unreachable with the shipped tables. -/
theorem c10_theorem :
    (∀ n, 1 ≤ n → n ≤ 6 →
      (submenus.lookup (main_options.getD (n - 1) "")).isSome = true) ∧
    (∀ (s : OverlayState) (n : Nat), 1 ≤ n → n ≤ 6 →
      s.visible = true → s.selection_pending = false → s.current_menu = "main" →
      s.options = main_options →
      (select_option s n).1.current_menu = main_options.getD (n - 1) "" ∧
      (select_option s n).1.main_menu_index = n ∧
      (select_option s n).1.options =
        (submenus.lookup (main_options.getD (n - 1) "")).getD [] ∧
      (select_option s n).2 = []) := by
  constructor
  · intro n h1 h6
    interval_cases n <;> decide
  · intro s n h1 h6 hvis hpend hmenu hopt
    have hlen : ¬ (s.options.length < n) := by
      rw [hopt]; simp [main_options]; omega
    rw [select_option]
    simp only [hvis, hpend, if_neg hlen, hmenu, hopt]
    interval_cases n <;> simp [main_options, submenus, List.lookup]

/-- Witness for C10: `Select(2)` at the visible root navigates to the
Animations submenu with `main_menu_index = 2`. -/
theorem c10_witness :
    (select_option ⟨true, "main", main_options, 0, false⟩ 2).1.current_menu =
      main_options.getD 1 "" ∧
    (select_option ⟨true, "main", main_options, 0, false⟩ 2).1.main_menu_index = 2 ∧
    (select_option ⟨true, "main", main_options, 0, false⟩ 2).1.options =
      (submenus.lookup (main_options.getD 1 "")).getD [] ∧
    (select_option ⟨true, "main", main_options, 0, false⟩ 2).2 = [] :=
  c10_theorem.2 ⟨true, "main", main_options, 0, false⟩ 2 (by decide) (by decide)
    rfl rfl rfl rfl

/-- One step of the `play_thread` loop on a non-empty frame list. -/
theorem play_aux_cons (delay : Rat) (alive : Nat → Bool) (f : PFrame)
    (rest : List PFrame) (t : Nat) :
    play_thread_aux delay alive (f :: rest) t =
      if alive t = true then
        (match payload? f with
         | some p => [PlayEvent.dispatch p]
         | none => []) ++
        (match rest with
         | [] => []
         | _ :: _ =>
           if alive (t + 1) = true then
             PlayEvent.sleep delay :: play_thread_aux delay alive rest (t + 2)
           else
             play_thread_aux delay alive rest (t + 2))
      else [] := rfl

/-- With the playing flag never cleared, `play_thread` dispatches every frame's
payload with exactly one sleep between consecutive dispatches and none after
the last. -/
theorem play_aux_intersperse (delay : Rat) (l : List PFrame)
    (h : ∀ f ∈ l, payload? f ≠ none) (t : Nat) :
    play_thread_aux delay (fun _ => true) l t =
      List.intersperse (PlayEvent.sleep delay)
        (l.map (fun f => PlayEvent.dispatch ((payload? f).getD []))) := by
  induction l generalizing t with
  | nil => rfl
  | cons f rest ih =>
    obtain ⟨p, hp⟩ : ∃ p, payload? f = some p :=
      Option.ne_none_iff_exists'.mp (h f (List.mem_cons_self f rest))
    have hrest : ∀ x ∈ rest, payload? x ≠ none :=
      fun x hx => h x (List.mem_cons_of_mem f hx)
    rw [play_aux_cons, hp, if_pos rfl]
    cases rest with
    | nil => simp [List.intersperse, hp]
    | cons g rest' =>
      rw [if_pos rfl, ih hrest (t + 2)]
      simp [List.intersperse, hp]

/-- A run with the flag cleared after `c` reads is a prefix of the uncancelled
run: cancellation only truncates the dispatch/sleep sequence. -/
theorem play_aux_prefix_of_cancel (delay : Rat) (c : Nat) (l : List PFrame)
    (t : Nat) :
    play_thread_aux delay (fun u => decide (u < c)) l t <+:
      play_thread_aux delay (fun _ => true) l t := by
  induction l generalizing t with
  | nil => exact List.prefix_refl _
  | cons f rest ih =>
    rw [play_aux_cons, play_aux_cons]
    by_cases hc : t < c
    · rw [if_pos (decide_eq_true hc), if_pos rfl]
      cases rest with
      | nil => exact List.prefix_refl _
      | cons g rest' =>
        by_cases hc2 : t + 1 < c
        · rw [if_pos (decide_eq_true hc2), if_pos rfl,
            List.prefix_append_right_inj, List.cons_prefix_cons]
          exact ⟨rfl, ih (t + 2)⟩
        · have hneg2 : ¬ ((fun u => decide (u < c)) (t + 1) = true) := by
            simp [hc2]
          have hc3 : ¬ (t + 2 < c) := by omega
          rw [if_neg hneg2, if_pos rfl]
          have hstop : play_thread_aux delay (fun u => decide (u < c))
              (g :: rest') (t + 2) = [] := by
            rw [play_aux_cons, if_neg (by simp [hc3])]
          rw [hstop, List.append_nil]
          exact List.prefix_append _ _
    · have hneg : ¬ ((fun u => decide (u < c)) t = true) := by simp [hc]
      rw [if_neg hneg, if_pos rfl]
      exact List.nil_prefix

/-- The overlay playback loop emits a dispatch-then-sleep pair for every frame
whose formatted payload is non-empty. -/
theorem overlay_events_eq (delay : Rat) (gs : List Frame)
    (h : ∀ g ∈ gs, format_frame_for_valorant g ≠ []) :
    overlay_play_events delay gs =
      (gs.map (fun g => [PlayEvent.dispatch (format_frame_for_valorant g),
                         PlayEvent.sleep delay])).flatten := by
  unfold overlay_play_events
  congr 1
  apply List.map_congr_left
  intro g hg
  simp [h g hg]

/-- The flattened dispatch/sleep pairs of a non-empty list end in the sleep. -/
theorem flatten_pairs_getLast (delay : Rat) (g : Frame) (rest : List Frame) :
    (((g :: rest).map (fun x => [PlayEvent.dispatch (format_frame_for_valorant x),
        PlayEvent.sleep delay])).flatten).getLast? = some (PlayEvent.sleep delay) := by
  induction rest generalizing g with
  | nil => rfl
  | cons g' rest' ih =>
    rw [List.map_cons, List.flatten_cons, List.getLast?_append, ih g']
    rfl

/-- The overlay playback trace of a non-empty frame list ends in a sleep. -/
theorem overlay_events_getLast (delay : Rat) (gs : List Frame)
    (h : ∀ g ∈ gs, format_frame_for_valorant g ≠ []) (hne : gs ≠ []) :
    (overlay_play_events delay gs).getLast? = some (PlayEvent.sleep delay) := by
  rw [overlay_events_eq delay gs h]
  cases gs with
  | nil => exact absurd rfl hne
  | cons g rest => exact flatten_pairs_getLast delay g rest

/-- C8 (amended): in `AnimationPlayer.start_playback`, the scheduler suspends
for `frame_delay` after submitting each frame's payload except after the final
frame, and cancellation only truncates this dispatch/sleep sequence (the flag
is read before every dispatch and before every suspension); in
`overlay.trigger_animation`'s playback loop, by contrast, the scheduler
suspends after every submitted frame — the final one included — and never
checks a cancellation flag. -/
theorem c8_theorem (delay : Rat) (c : Nat) (fs : List PFrame) (gs : List Frame)
    (hfs : ∀ f ∈ fs, payload? f ≠ none)
    (hgs : ∀ g ∈ gs, format_frame_for_valorant g ≠ []) :
    play_thread_events delay (fun _ => true) fs =
      List.intersperse (PlayEvent.sleep delay)
        (fs.map (fun f => PlayEvent.dispatch ((payload? f).getD []))) ∧
    (play_thread_events delay (fun u => decide (u < c)) fs <+:
      play_thread_events delay (fun _ => true) fs) ∧
    overlay_play_events delay gs =
      (gs.map (fun g => [PlayEvent.dispatch (format_frame_for_valorant g),
                         PlayEvent.sleep delay])).flatten ∧
    (gs ≠ [] →
      (overlay_play_events delay gs).getLast? = some (PlayEvent.sleep delay)) :=
  ⟨play_aux_intersperse delay fs hfs 0,
   play_aux_prefix_of_cancel delay c fs 0,
   overlay_events_eq delay gs hgs,
   overlay_events_getLast delay gs hgs⟩

/-- C8 counterexample: for the truck playback subsequence the overlay
scheduler's last emitted event is a suspension — it does sleep after the final
frame, contradicting the claim. -/
theorem c8_counterexample :
    ((overlay_play_events (1/2) (frames_to_play TRUCK_ANIMATION 5)).map
        is_sleep).getLast? = some true := by
  decide

/-- Witness for C8 at a one-frame playback list built from the truck sprite. -/
theorem c8_witness :
    (∀ f ∈ [PFrame.lines TRUCK_SPRITE], payload? f ≠ none) ∧
    (∀ g ∈ [TRUCK_SPRITE], format_frame_for_valorant g ≠ []) ∧
    (play_thread_events (1/2) (fun _ => true) [PFrame.lines TRUCK_SPRITE] =
      List.intersperse (PlayEvent.sleep (1/2))
        ([PFrame.lines TRUCK_SPRITE].map
          (fun f => PlayEvent.dispatch ((payload? f).getD []))) ∧
    (play_thread_events (1/2) (fun u => decide (u < 1)) [PFrame.lines TRUCK_SPRITE] <+:
      play_thread_events (1/2) (fun _ => true) [PFrame.lines TRUCK_SPRITE]) ∧
    overlay_play_events (1/2) [TRUCK_SPRITE] =
      ([TRUCK_SPRITE].map (fun g => [PlayEvent.dispatch (format_frame_for_valorant g),
                         PlayEvent.sleep (1/2)])).flatten ∧
    ([TRUCK_SPRITE] ≠ ([] : List Frame) →
      (overlay_play_events (1/2) [TRUCK_SPRITE]).getLast? =
        some (PlayEvent.sleep (1/2)))) :=
  ⟨by decide, by decide,
   c8_theorem (1/2) 1 [PFrame.lines TRUCK_SPRITE] [TRUCK_SPRITE]
     (by decide) (by decide)⟩

/-- Appending one trailing space and `rstrip`ping again strips back to the same
place. -/
theorem pyRstrip_append_space (X : List Char) :
    pyRstrip (X ++ [' ']) = pyRstrip X := by
  simp [pyRstrip, List.dropWhile, show pyIsSpace ' ' = true from rfl]

/-- `rstrip` leaves a list ending in a non-whitespace character unchanged. -/
theorem pyRstrip_append_nonspace (X : List Char) (c : Char)
    (h : pyIsSpace c = false) :
    pyRstrip (X ++ [c]) = X ++ [c] := by
  simp [pyRstrip, List.dropWhile, h]

/-- The formatter on a frame whose last line ends in a non-whitespace
character: every earlier line is followed by exactly one delimiter, and the
trailing delimiter after the last line is removed. -/
theorem format_snoc_eq (ls : List (List Char)) (l : List Char) (c : Char)
    (hc : pyIsSpace c = false) :
    format_frame_for_valorant (ls ++ [l ++ [c]]) =
      ((ls.map (fun x => x ++ [' '])).flatten) ++ (l ++ [c]) := by
  unfold format_frame_for_valorant
  rw [List.map_append, List.flatten_append]
  simp only [List.map_cons, List.map_nil, List.flatten_cons, List.flatten_nil,
    List.append_nil]
  rw [show (l ++ [c]) ++ [' '] = (l ++ [c]) ++ [' '] from rfl,
    ← List.append_assoc, pyRstrip_append_space, ← List.append_assoc,
    pyRstrip_append_nonspace _ c hc, List.append_assoc]

/-- C9 (amended): the wire formatter concatenates a frame's 26-character lines
with a single space delimiter after each line (i.e. after every 26-character
run) and then strips ALL trailing whitespace — not only the one trailing
delimiter — so a single 26-character line whose final character is not
whitespace formats to exactly that line with no trailing space. -/
theorem c9_theorem (ls : List (List Char)) (l : List Char) (c : Char)
    (h26 : ∀ x ∈ ls, x.length = 26) (hlen : (l ++ [c]).length = 26)
    (hc : pyIsSpace c = false) :
    format_frame_for_valorant (ls ++ [l ++ [c]]) =
      ((ls.map (fun x => x ++ [' '])).flatten) ++ (l ++ [c]) ∧
    format_frame_for_valorant [l ++ [c]] = l ++ [c] := by
  refine ⟨format_snoc_eq ls l c hc, ?_⟩
  have h := format_snoc_eq [] l c hc
  simpa using h

/-- C9 counterexample: a 26-character line made of spaces formats to the empty
payload, not to itself — `rstrip()` removes more than the one trailing
delimiter. -/
theorem c9_counterexample :
    format_frame_for_valorant [List.replicate 26 ' '] ≠ List.replicate 26 ' ' := by
  decide

/-- Witness for C9 at a 26-character background-glyph line. -/
theorem c9_witness :
    (∀ x ∈ ([] : List (List Char)), x.length = 26) ∧
    (List.replicate 25 '▒' ++ ['▒']).length = 26 ∧
    pyIsSpace '▒' = false ∧
    format_frame_for_valorant [List.replicate 25 '▒' ++ ['▒']] =
      List.replicate 25 '▒' ++ ['▒'] :=
  ⟨by decide, by decide, by decide,
   (c9_theorem [] (List.replicate 25 '▒') '▒' (by decide) (by decide)
     (by decide)).2⟩

end ValTime
